import Mathlib

/-!
# ODrive v3 board: sampling tick, control tick and ADC fetch

A shallow embedding of the interrupt pipeline of `Firmware/Board/v3/board.cpp`:
`fetch_and_reset_adcs`, `TIM8_UP_TIM13_IRQHandler` and `ControlLoop_IRQHandler`.

Modelling conventions.

* Memory-mapped registers and the file-level globals `timestamp_` and
  `counting_down_` are fields of `Machine`; 32-bit unsigned arithmetic is `Nat`
  arithmetic reduced modulo `2 ^ 32`.
* Functions of the firmware that live in other translation units
  (`disarm_with_error`, `sampling_cb`, `current_meas_cb`, ...) are calls whose effect
  on the machine is an arbitrary function supplied by an `Env`; every call, and every
  register write of a handler, is appended to a trace of `Event`s.
* Preprocessor constants come from headers that are not part of this file; they are
  the fields of `Consts`, and the theorems hold for every value of them.
* `float` is an arbitrary type `F` with `0`, negation and subtraction; nothing about
  floating-point arithmetic is assumed.
-/

namespace ODrive

/-! ## Constants, registers and machine state -/

/-- Preprocessor constants used by `board.cpp` and defined in headers outside it. -/
structure Consts where
  ADC_SR_EOC : Nat
  ADC_SR_JEOC : Nat
  ADC_SR_OVR : Nat
  TIM_CR1_DIR : Nat
  TIM_BDTR_MOE_Msk : Nat
  TIM_1_8_PERIOD_CLOCKS : Nat
  TIM_1_8_RCR : Nat
  TIM1_INIT_COUNT : Nat

/-- The values of the constants on the STM32F405 of the ODrive v3: the status bits of
the reference manual (EOC bit 1, JEOC bit 2, OVR bit 5, DIR bit 4, MOE bit 15) and the
timing constants of the v3 board (period 3500 clocks, repetition counter 2, initial
count of TIM1 `3500 / 2 - 128`). -/
def stm32f405 : Consts where
  ADC_SR_EOC := 2
  ADC_SR_JEOC := 4
  ADC_SR_OVR := 32
  TIM_CR1_DIR := 16
  TIM_BDTR_MOE_Msk := 32768
  TIM_1_8_PERIOD_CLOCKS := 3500
  TIM_1_8_RCR := 2
  TIM1_INIT_COUNT := 1622

/-- The registers of one analog-to-digital converter that the handlers touch. -/
structure ADC_TypeDef where
  SR : Nat
  JDR1 : Nat
  DR : Nat
deriving DecidableEq, Repr

/-- The registers of one advanced timer that the handlers touch. -/
structure TIM_TypeDef where
  CR1 : Nat
  BDTR : Nat
  CCR1 : Nat
  CCR2 : Nat
  CCR3 : Nat
deriving DecidableEq, Repr

/-- Peripheral registers and globals read or written by the three functions. -/
structure Machine where
  ADC1 : ADC_TypeDef
  ADC2 : ADC_TypeDef
  ADC3 : ADC_TypeDef
  TIM1 : TIM_TypeDef
  TIM8 : TIM_TypeDef
  timestamp_ : Nat
  counting_down_ : Bool
  m0_gate_driver_is_ready : Bool
  m1_gate_driver_is_ready : Bool
  TaskTimer_enabled : Bool
  task_timers_armed_ : Bool
deriving DecidableEq, Repr

/-- Error codes of `Motor` passed to `disarm_with_error` by this file. -/
inductive MotorError where
  | ERROR_TIMER_UPDATE_MISSED
  | ERROR_BAD_TIMING
  | ERROR_CONTROL_DEADLINE_MISSED
deriving DecidableEq, Repr

/-- Interrupt numbers named by the two handlers. -/
inductive IRQn where
  | TIM8_UP_TIM13_IRQn
  | ControlLoop_IRQn
deriving DecidableEq, Repr

/-- The three converters. -/
inductive AdcId where
  | ADC1
  | ADC2
  | ADC3
deriving DecidableEq, Repr

/-- The two PWM timers. -/
inductive TimId where
  | TIM1
  | TIM8
deriving DecidableEq, Repr

/-- The three compare registers of a PWM timer. -/
inductive CcrId where
  | CCR1
  | CCR2
  | CCR3
deriving DecidableEq, Repr

/-- Phase currents of one motor (`Iph_ABC_t`), over the type `F` standing for `float`. -/
structure Iph_ABC_t (F : Type) where
  phA : F
  phB : F
  phC : F
deriving DecidableEq, Repr

/-- What a handler does that is visible outside it: calls into other translation
units and writes to peripheral registers, in program order. -/
inductive Event (F : Type) where
  | COUNT_IRQ (irq : IRQn)
  | HAL_TIM_CLEAR_IT_htim8_UPDATE
  | disarm_with_error (motor : Fin 2) (e : MotorError)
  | sampling_cb
  | NVIC_STIR (irq : IRQn)
  | write_CCR (tim : TimId) (ch : CcrId) (v : Nat)
  | vbus_sense_adc_cb (v : Nat)
  | write_ADC_SR (adc : AdcId) (v : Nat)
  | current_meas_cb (motor : Fin 2) (timestamp : Nat) (current : Option (Iph_ABC_t F))
  | control_loop_cb (timestamp : Nat)
  | dc_calib_cb (motor : Fin 2) (timestamp : Nat) (current : Option (Iph_ABC_t F))
  | pwm_update_cb (motor : Fin 2) (timestamp : Nat)
deriving DecidableEq, Repr

/-- The surroundings of the handlers: the effect on the machine of each call that
leaves `board.cpp` (including whatever hardware or a preempting interrupt does while
the call runs), the current conversion of `Motor::phase_current_from_adcval`, and the
progress of the hardware during one iteration of the busy-wait. -/
structure Env (F : Type) where
  effect : Event F → Machine → Machine
  phase_current_from_adcval : Fin 2 → Nat → Option F
  spin : Machine → Machine

/-- A point of an execution: the machine and the events so far. -/
structure Run (F : Type) where
  hw : Machine
  trace : List (Event F)

variable {F : Type}

/-- A call into another translation unit: logged, and the machine changes as the
environment says. -/
def Run.call (env : Env F) (e : Event F) (r : Run F) : Run F :=
  { hw := env.effect e r.hw, trace := r.trace ++ [e] }

/-- An action that changes none of the modelled registers: logged only. -/
def Run.log (e : Event F) (r : Run F) : Run F :=
  { hw := r.hw, trace := r.trace ++ [e] }

/-! ## 32-bit unsigned arithmetic -/

/-- Addition of `uint32_t`. -/
def add32 (a b : Nat) : Nat := (a + b) % 2 ^ 32

/-- Subtraction of `uint32_t`. -/
def sub32 (a b : Nat) : Nat := (a + (2 ^ 32 - b % 2 ^ 32)) % 2 ^ 32

/-- Bitwise complement of a `uint32_t`. -/
def not32 (a : Nat) : Nat := 2 ^ 32 - 1 - a % 2 ^ 32

/-- The increment `TIM_1_8_PERIOD_CLOCKS * (TIM_1_8_RCR + 1)`. -/
def Consts.increment (k : Consts) : Nat :=
  k.TIM_1_8_PERIOD_CLOCKS * (k.TIM_1_8_RCR + 1)

/-! ## `fetch_and_reset_adcs` (board.cpp lines 421-454) -/

/-- A store to `ADCx->SR`. The status bits are cleared by writing 0 and unaffected by
writing 1, so the register becomes its old value AND the written word. -/
def write_ADC_SR (adc : AdcId) (v : Nat) (r : Run F) : Run F :=
  let m := r.hw
  let hw : Machine :=
    match adc with
    | .ADC1 => { m with ADC1 := { m.ADC1 with SR := m.ADC1.SR &&& v } }
    | .ADC2 => { m with ADC2 := { m.ADC2 with SR := m.ADC2.SR &&& v } }
    | .ADC3 => { m with ADC3 := { m.ADC3 with SR := m.ADC3.SR &&& v } }
  { hw := hw, trace := r.trace ++ [Event.write_ADC_SR adc v] }

/-- The reconstruction `{-*phB - *phC, *phB, *phC}` inside
`if (phB.has_value() && phC.has_value())`; the output keeps its old value otherwise. -/
def reconstruct [Neg F] [Sub F] (phB phC : Option F) (current : Option (Iph_ABC_t F)) :
    Option (Iph_ABC_t F) :=
  match phB, phC with
  | some b, some c => some { phA := -b - c, phB := b, phC := c }
  | _, _ => current

/-- Embedding of `fetch_and_reset_adcs`. The two out-parameters are passed in and
returned; the result is `(return value, *current0, *current1, run)`. -/
def fetch_and_reset_adcs [Neg F] [Sub F] (k : Consts) (env : Env F)
    (current0 current1 : Option (Iph_ABC_t F)) (r : Run F) :
    Bool × Option (Iph_ABC_t F) × Option (Iph_ABC_t F) × Run F :=
  let all_adcs_done : Bool :=
    (r.hw.ADC1.SR &&& k.ADC_SR_JEOC == k.ADC_SR_JEOC)
    && (r.hw.ADC2.SR &&& (k.ADC_SR_EOC ||| k.ADC_SR_JEOC)
          == (k.ADC_SR_EOC ||| k.ADC_SR_JEOC))
    && (r.hw.ADC3.SR &&& (k.ADC_SR_EOC ||| k.ADC_SR_JEOC)
          == (k.ADC_SR_EOC ||| k.ADC_SR_JEOC))
  if !all_adcs_done then
    (false, current0, current1, r)
  else
    let r := r.call env (Event.vbus_sense_adc_cb r.hw.ADC1.JDR1)
    let current0 :=
      if r.hw.m0_gate_driver_is_ready then
        reconstruct (env.phase_current_from_adcval 0 r.hw.ADC2.JDR1)
          (env.phase_current_from_adcval 0 r.hw.ADC3.JDR1) current0
      else current0
    let current1 :=
      if r.hw.m1_gate_driver_is_ready then
        reconstruct (env.phase_current_from_adcval 1 r.hw.ADC2.DR)
          (env.phase_current_from_adcval 1 r.hw.ADC3.DR) current1
      else current1
    let r := write_ADC_SR AdcId.ADC1 (not32 k.ADC_SR_JEOC) r
    let r := write_ADC_SR AdcId.ADC2
      (not32 (k.ADC_SR_EOC ||| k.ADC_SR_JEOC ||| k.ADC_SR_OVR)) r
    let r := write_ADC_SR AdcId.ADC3
      (not32 (k.ADC_SR_EOC ||| k.ADC_SR_JEOC ||| k.ADC_SR_OVR)) r
    (true, current0, current1, r)

/-! ## `TIM8_UP_TIM13_IRQHandler` (board.cpp lines 477-519) -/

/-- The value of `bool counting_down = TIM8->CR1 & TIM_CR1_DIR`. -/
def counting_down (k : Consts) (cr1 : Nat) : Bool :=
  decide (cr1 &&& k.TIM_CR1_DIR ≠ 0)

/-- A store to one compare register of a PWM timer. -/
def write_CCR (tim : TimId) (ch : CcrId) (v : Nat) (r : Run F) : Run F :=
  let m := r.hw
  let upd (t : TIM_TypeDef) : TIM_TypeDef :=
    match ch with
    | .CCR1 => { t with CCR1 := v }
    | .CCR2 => { t with CCR2 := v }
    | .CCR3 => { t with CCR3 := v }
  let hw : Machine :=
    match tim with
    | .TIM1 => { m with TIM1 := upd m.TIM1 }
    | .TIM8 => { m with TIM8 := upd m.TIM8 }
  { hw := hw, trace := r.trace ++ [Event.write_CCR tim ch v] }

/-- Embedding of `TIM8_UP_TIM13_IRQHandler`. `COUNT_IRQ`, the clearing of the update
flag and the store to `NVIC->STIR` touch no modelled register and are logged only. The
chained assignment to the six compare registers stores right to left. -/
def TIM8_UP_TIM13_IRQHandler (k : Consts) (env : Env F) (r : Run F) : Run F :=
  let r := r.log (Event.COUNT_IRQ IRQn.TIM8_UP_TIM13_IRQn)
  let r := r.log Event.HAL_TIM_CLEAR_IT_htim8_UPDATE
  let counting_down := counting_down k r.hw.TIM8.CR1
  let timer_update_missed : Bool := (r.hw.counting_down_ == counting_down)
  if timer_update_missed then
    let r := r.call env (Event.disarm_with_error 0 MotorError.ERROR_TIMER_UPDATE_MISSED)
    let r := r.call env (Event.disarm_with_error 1 MotorError.ERROR_TIMER_UPDATE_MISSED)
    r
  else
    let r : Run F := { r with hw := { r.hw with counting_down_ := counting_down } }
    let r : Run F :=
      { r with hw := { r.hw with timestamp_ := add32 r.hw.timestamp_ k.increment } }
    if !counting_down then
      let r : Run F :=
        { r with hw := { r.hw with TaskTimer_enabled := r.hw.task_timers_armed_ } }
      let r := r.call env Event.sampling_cb
      let r := r.log (Event.NVIC_STIR IRQn.ControlLoop_IRQn)
      r
    else
      let v := (k.TIM_1_8_PERIOD_CLOCKS / 2) % 2 ^ 32
      let r := write_CCR TimId.TIM8 CcrId.CCR3 v r
      let r := write_CCR TimId.TIM8 CcrId.CCR2 v r
      let r := write_CCR TimId.TIM8 CcrId.CCR1 v r
      let r := write_CCR TimId.TIM1 CcrId.CCR3 v r
      let r := write_CCR TimId.TIM1 CcrId.CCR2 v r
      let r := write_CCR TimId.TIM1 CcrId.CCR1 v r
      r

/-- The hardware sets `TIM8->CR1` (whose `DIR` bit is read-only status) to `cr1`. -/
def timer_presents (cr1 : Nat) (r : Run F) : Run F :=
  { r with hw := { r.hw with TIM8 := { r.hw.TIM8 with CR1 := cr1 } } }

/-- A run of update events: before each invocation of the handler the timer presents
the next value of `TIM8->CR1`. -/
def update_events (k : Consts) (env : Env F) : List Nat → Run F → Run F
  | [], r => r
  | cr1 :: rest, r =>
    update_events k env rest (TIM8_UP_TIM13_IRQHandler k env (timer_presents cr1 r))

/-- The directions carried by a list of `TIM8->CR1` values alternate, the first one
differing from `stored`. -/
def alternates (k : Consts) : Bool → List Nat → Bool
  | _, [] => true
  | stored, cr1 :: rest =>
    (counting_down k cr1 != stored) && alternates k (counting_down k cr1) rest

/-! ## `ControlLoop_IRQHandler` (board.cpp lines 521-578) -/

/-- The local variables of `ControlLoop_IRQHandler`. -/
structure Locals (F : Type) where
  timestamp : Nat
  current0 : Option (Iph_ABC_t F)
  current1 : Option (Iph_ABC_t F)

/-- The statement `if (!fetch_and_reset_adcs(&current0, &current1)) { ... }` of lines
529-532 and 557-560: the result of the fetch, the locals and the run after it. -/
def fetch_or_disarm [Neg F] [Sub F] (k : Consts) (env : Env F) (loc : Locals F)
    (r : Run F) : Bool × Locals F × Run F :=
  let res := fetch_and_reset_adcs k env loc.current0 loc.current1 r
  let ok := res.1
  let loc : Locals F := { loc with current0 := res.2.1, current1 := res.2.2.1 }
  let r := res.2.2.2
  if !ok then
    let r := r.call env (Event.disarm_with_error 0 MotorError.ERROR_BAD_TIMING)
    let r := r.call env (Event.disarm_with_error 1 MotorError.ERROR_BAD_TIMING)
    (ok, loc, r)
  else
    (ok, loc, r)

/-- Lines 522-532: entry, capture of `timestamp_`, the two empty optionals and the
first ADC round. -/
def ControlLoop_round1 [Neg F] [Sub F] (k : Consts) (env : Env F) (r : Run F) :
    Bool × Locals F × Run F :=
  let r := r.log (Event.COUNT_IRQ IRQn.ControlLoop_IRQn)
  let loc : Locals F := { timestamp := r.hw.timestamp_, current0 := none, current1 := none }
  fetch_or_disarm k env loc r

/-- Lines 539-549: the zero override of a bridge whose main output enable is off
(`current0 = {0.0f, 0.0f}` leaves the third member zero), the delivery of the current
samples and the control computation. -/
def ControlLoop_measure [Zero F] (k : Consts) (env : Env F) (loc : Locals F)
    (r : Run F) : Locals F × Run F :=
  let loc : Locals F :=
    if r.hw.TIM1.BDTR &&& k.TIM_BDTR_MOE_Msk = 0 then
      { loc with current0 := some { phA := 0, phB := 0, phC := 0 } }
    else loc
  let loc : Locals F :=
    if r.hw.TIM8.BDTR &&& k.TIM_BDTR_MOE_Msk = 0 then
      { loc with current1 := some { phA := 0, phB := 0, phC := 0 } }
    else loc
  let r := r.call env
    (Event.current_meas_cb 0 (sub32 loc.timestamp k.TIM1_INIT_COUNT) loc.current0)
  let r := r.call env (Event.current_meas_cb 1 loc.timestamp loc.current1)
  let r := r.call env (Event.control_loop_cb loc.timestamp)
  (loc, r)

/-- Lines 553-555: `while (!(ADC2->SR & ADC_SR_EOC));`. Each iteration lets the
hardware progress by `env.spin`; `none` when the flag has not appeared within `fuel`
iterations. -/
def dc_calib_wait (k : Consts) (env : Env F) : Nat → Run F → Option (Run F)
  | 0, r => if r.hw.ADC2.SR &&& k.ADC_SR_EOC = 0 then none else some r
  | fuel + 1, r =>
    if r.hw.ADC2.SR &&& k.ADC_SR_EOC = 0 then
      dc_calib_wait k env fuel { r with hw := env.spin r.hw }
    else some r

/-- Lines 562-566: delivery of the calibration samples and of the PWM updates. -/
def ControlLoop_update (k : Consts) (env : Env F) (loc : Locals F) (r : Run F) : Run F :=
  let r := r.call env
    (Event.dc_calib_cb 0 (sub32 (add32 loc.timestamp k.increment) k.TIM1_INIT_COUNT)
      loc.current0)
  let r := r.call env (Event.dc_calib_cb 1 (add32 loc.timestamp k.increment) loc.current1)
  let r := r.call env
    (Event.pwm_update_cb 0
      (sub32 (add32 loc.timestamp (3 * k.TIM_1_8_PERIOD_CLOCKS * (k.TIM_1_8_RCR + 1)))
        k.TIM1_INIT_COUNT))
  let r := r.call env
    (Event.pwm_update_cb 1
      (add32 loc.timestamp (3 * k.TIM_1_8_PERIOD_CLOCKS * (k.TIM_1_8_RCR + 1))))
  r

/-- Lines 571-577: the deadline check on `timestamp_` and the task-timer epilogue. -/
def ControlLoop_deadline (k : Consts) (env : Env F) (loc : Locals F) (r : Run F) : Run F :=
  let r :=
    if r.hw.timestamp_ ≠ add32 loc.timestamp k.increment then
      let r := r.call env
        (Event.disarm_with_error 0 MotorError.ERROR_CONTROL_DEADLINE_MISSED)
      let r := r.call env
        (Event.disarm_with_error 1 MotorError.ERROR_CONTROL_DEADLINE_MISSED)
      r
    else r
  let armed := r.hw.task_timers_armed_ && !r.hw.TaskTimer_enabled
  { r with hw := { r.hw with task_timers_armed_ := armed, TaskTimer_enabled := false } }

/-- The locals and the run when control reaches the busy-wait of line 554. -/
def ControlLoop_before_wait [Zero F] [Neg F] [Sub F] (k : Consts) (env : Env F)
    (r : Run F) : Locals F × Run F :=
  let a := ControlLoop_round1 k env r
  ControlLoop_measure k env a.2.1 a.2.2

/-- The result of the second ADC round (line 557), the locals and the run when
control reaches the deadline check of line 571; `none` when the wait ran out of fuel. -/
def ControlLoop_before_deadline [Zero F] [Neg F] [Sub F] (k : Consts) (env : Env F)
    (fuel : Nat) (r : Run F) : Option (Bool × Locals F × Run F) :=
  let b := ControlLoop_before_wait k env r
  match dc_calib_wait k env fuel b.2 with
  | none => none
  | some r =>
    let c := fetch_or_disarm k env b.1 r
    some (c.1, c.2.1, ControlLoop_update k env c.2.1 c.2.2)

/-- Embedding of `ControlLoop_IRQHandler`: the blocks above in program order. -/
def ControlLoop_IRQHandler [Zero F] [Neg F] [Sub F] (k : Consts) (env : Env F)
    (fuel : Nat) (r : Run F) : Option (Run F) :=
  match ControlLoop_before_deadline k env fuel r with
  | none => none
  | some c => some (ControlLoop_deadline k env c.2.1 c.2.2)

/-! ## Observations on traces -/

/-- The event is the call `motors[m].disarm_with_error(e)`. -/
def Event.is_disarm (m : Fin 2) (e : MotorError) : Event F → Bool
  | Event.disarm_with_error m1 e1 => m1 == m && e1 == e
  | _ => false

/-- The event is a call of `disarm_with_error`, on any motor with any error. -/
def Event.is_any_disarm : Event F → Bool
  | Event.disarm_with_error _ _ => true
  | _ => false

/-- The event is the call `odrv.sampling_cb()`. -/
def Event.is_sampling : Event F → Bool
  | Event.sampling_cb => true
  | _ => false

/-- The event is the store `NVIC->STIR = ControlLoop_IRQn`. -/
def Event.is_raise : Event F → Bool
  | Event.NVIC_STIR IRQn.ControlLoop_IRQn => true
  | _ => false

/-- The status register of a converter. -/
def Machine.SR (m : Machine) : AdcId → Nat
  | AdcId.ADC1 => m.ADC1.SR
  | AdcId.ADC2 => m.ADC2.SR
  | AdcId.ADC3 => m.ADC3.SR

/-- No call made by the sampling tick writes the two globals that the tick owns:
`timestamp_` and `counting_down_` are written only by `TIM8_UP_TIM13_IRQHandler`. -/
def Env.keeps_tick (env : Env F) : Prop :=
  ∀ (e : Event F) (m : Machine),
    (env.effect e m).timestamp_ = m.timestamp_ ∧
    (env.effect e m).counting_down_ = m.counting_down_

/-- The events of one accepted update event that presents `cr1`: entry bookkeeping,
then the six compare stores when counting down, or the sampling callback and the raise
of the control-loop interrupt when counting up. -/
def accepted_events (k : Consts) (cr1 : Nat) : List (Event F) :=
  if counting_down k cr1 then
    [Event.COUNT_IRQ IRQn.TIM8_UP_TIM13_IRQn, Event.HAL_TIM_CLEAR_IT_htim8_UPDATE,
     Event.write_CCR TimId.TIM8 CcrId.CCR3 ((k.TIM_1_8_PERIOD_CLOCKS / 2) % 2 ^ 32),
     Event.write_CCR TimId.TIM8 CcrId.CCR2 ((k.TIM_1_8_PERIOD_CLOCKS / 2) % 2 ^ 32),
     Event.write_CCR TimId.TIM8 CcrId.CCR1 ((k.TIM_1_8_PERIOD_CLOCKS / 2) % 2 ^ 32),
     Event.write_CCR TimId.TIM1 CcrId.CCR3 ((k.TIM_1_8_PERIOD_CLOCKS / 2) % 2 ^ 32),
     Event.write_CCR TimId.TIM1 CcrId.CCR2 ((k.TIM_1_8_PERIOD_CLOCKS / 2) % 2 ^ 32),
     Event.write_CCR TimId.TIM1 CcrId.CCR1 ((k.TIM_1_8_PERIOD_CLOCKS / 2) % 2 ^ 32)]
  else
    [Event.COUNT_IRQ IRQn.TIM8_UP_TIM13_IRQn, Event.HAL_TIM_CLEAR_IT_htim8_UPDATE,
     Event.sampling_cb, Event.NVIC_STIR IRQn.ControlLoop_IRQn]

/-- The events of a run of accepted update events. -/
def accepted_trace (k : Consts) : List Nat → List (Event F)
  | [] => []
  | cr1 :: rest => accepted_events k cr1 ++ accepted_trace k rest

/-- A converter lacks one of the completion flags that `fetch_and_reset_adcs` expects:
`JEOC` for ADC1, `EOC` and `JEOC` for ADC2 and ADC3. -/
def lacks_completion (k : Consts) (m : Machine) : Prop :=
  m.ADC1.SR &&& k.ADC_SR_JEOC ≠ k.ADC_SR_JEOC ∨
  m.ADC2.SR &&& (k.ADC_SR_EOC ||| k.ADC_SR_JEOC) ≠ (k.ADC_SR_EOC ||| k.ADC_SR_JEOC) ∨
  m.ADC3.SR &&& (k.ADC_SR_EOC ||| k.ADC_SR_JEOC) ≠ (k.ADC_SR_EOC ||| k.ADC_SR_JEOC)

instance (k : Consts) (m : Machine) : Decidable (lacks_completion k m) := by
  unfold lacks_completion
  infer_instance

/-! ## Concrete surroundings used to run the model -/

/-- Surroundings in which no call changes the machine. -/
def Env.idle : Env Int where
  effect := fun _ m => m
  phase_current_from_adcval := fun _ v => some ((v : Int) - 2048)
  spin := fun m => m

/-- The machine after reset of the globals: `timestamp_ = 0`, `counting_down_ = false`,
all modelled registers zero. -/
def Machine.init : Machine where
  ADC1 := { SR := 0, JDR1 := 0, DR := 0 }
  ADC2 := { SR := 0, JDR1 := 0, DR := 0 }
  ADC3 := { SR := 0, JDR1 := 0, DR := 0 }
  TIM1 := { CR1 := 0, BDTR := 0, CCR1 := 0, CCR2 := 0, CCR3 := 0 }
  TIM8 := { CR1 := 0, BDTR := 0, CCR1 := 0, CCR2 := 0, CCR3 := 0 }
  timestamp_ := 0
  counting_down_ := false
  m0_gate_driver_is_ready := false
  m1_gate_driver_is_ready := false
  TaskTimer_enabled := false
  task_timers_armed_ := false

/-- The run that starts at `Machine.init` with an empty trace. -/
def Run.init : Run Int := { hw := Machine.init, trace := [] }

/-- A machine at the entry of the control tick: all conversions complete, both gate
drivers ready, both bridges enabled, raw codes 2148, 2048, 1948 and 2058. -/
def Machine.sampled : Machine where
  ADC1 := { SR := 4, JDR1 := 3000, DR := 0 }
  ADC2 := { SR := 6, JDR1 := 2148, DR := 1948 }
  ADC3 := { SR := 6, JDR1 := 2048, DR := 2058 }
  TIM1 := { CR1 := 0, BDTR := 32768, CCR1 := 0, CCR2 := 0, CCR3 := 0 }
  TIM8 := { CR1 := 0, BDTR := 32768, CCR1 := 0, CCR2 := 0, CCR3 := 0 }
  timestamp_ := 21000
  counting_down_ := false
  m0_gate_driver_is_ready := true
  m1_gate_driver_is_ready := true
  TaskTimer_enabled := false
  task_timers_armed_ := false

/-- The run that starts at `Machine.sampled` with an empty trace. -/
def Run.sampled : Run Int := { hw := Machine.sampled, trace := [] }

/-- The run `Run.sampled` with the overrun bit of `ADC2->SR` set as well. -/
def Run.overrun : Run Int :=
  { hw := { Machine.sampled with ADC2 := { SR := 38, JDR1 := 2148, DR := 1948 } },
    trace := [] }

/-- The run `Run.sampled` with the regular end-of-conversion bit of `ADC1->SR` set as
well. -/
def Run.adc1_regular : Run Int :=
  { hw := { Machine.sampled with ADC1 := { SR := 6, JDR1 := 3000, DR := 0 } },
    trace := [] }

/-- Surroundings with a stuck first converter: as `Env.nominal`, but ADC1 never shows
its injected end of conversion. -/
def Env.stuck : Env Int where
  effect := fun e m =>
    match e with
    | Event.control_loop_cb _ =>
      { m with
        timestamp_ := add32 m.timestamp_ stm32f405.increment
        ADC1 := { m.ADC1 with SR := 0 }
        ADC2 := { m.ADC2 with SR := 6 }
        ADC3 := { m.ADC3 with SR := 6 } }
    | _ => m
  phase_current_from_adcval := fun _ v => some ((v : Int) - 2048)
  spin := fun m => m

/-- The run `Run.sampled` with the status register of ADC1 empty. -/
def Run.stuck : Run Int :=
  { hw := { Machine.sampled with ADC1 := { SR := 0, JDR1 := 3000, DR := 0 } },
    trace := [] }

/-- The `TIM8->CR1` values of `2 * n` update events on the v3 board, starting with
count-down (`DIR` set) and alternating. -/
def down_up : Nat → List Nat
  | 0 => []
  | n + 1 => 16 :: 0 :: down_up n

/-- The run `Run.sampled` with the bridge of motor 0 not enabled (`MOE` clear in
`TIM1->BDTR`): conversions complete, gate drivers ready, raw codes as before. -/
def Run.coasting : Run Int :=
  { hw := { Machine.sampled with
              TIM1 := { CR1 := 0, BDTR := 0, CCR1 := 0, CCR2 := 0, CCR3 := 0 } },
    trace := [] }

/-- The first update event after reset on the v3 board: the counter has turned and
`TIM8->CR1` shows count-down. -/
def Run.at_top : Run Int := timer_presents 16 Run.init

/-- The second update event: the first one has been handled and `TIM8->CR1` shows
count-up. -/
def Run.at_bottom : Run Int :=
  timer_presents 0 (TIM8_UP_TIM13_IRQHandler stm32f405 Env.idle Run.at_top)

/-! ## Basic facts about runs -/

@[simp] theorem Run.call_hw (env : Env F) (e : Event F) (r : Run F) :
    (r.call env e).hw = env.effect e r.hw := rfl

@[simp] theorem Run.call_trace (env : Env F) (e : Event F) (r : Run F) :
    (r.call env e).trace = r.trace ++ [e] := rfl

@[simp] theorem Run.log_hw (e : Event F) (r : Run F) : (r.log e).hw = r.hw := rfl

@[simp] theorem Run.log_trace (e : Event F) (r : Run F) :
    (r.log e).trace = r.trace ++ [e] := rfl

@[simp] theorem write_CCR_trace (tim : TimId) (ch : CcrId) (v : Nat) (r : Run F) :
    (write_CCR tim ch v r).trace = r.trace ++ [Event.write_CCR tim ch v] := rfl

@[simp] theorem write_ADC_SR_trace (adc : AdcId) (v : Nat) (r : Run F) :
    (write_ADC_SR adc v r).trace = r.trace ++ [Event.write_ADC_SR adc v] := rfl

/-! ## The sampling tick: a missed update -/

/-- C1: when the direction read from `TIM8->CR1` equals the stored `counting_down_`,
the handler does exactly this after its entry bookkeeping: it calls
`disarm_with_error(ERROR_TIMER_UPDATE_MISSED)` on motor 0 and on motor 1 and returns.
The sampling callback is not invoked, the control-loop interrupt is not raised, no
compare register is written, and the machine is changed by the two disarm calls only. -/
theorem TIM8_update_missed_disarms_both (k : Consts) (env : Env F) (r : Run F)
    (h : counting_down k r.hw.TIM8.CR1 = r.hw.counting_down_) :
    ∃ added : List (Event F),
      (TIM8_UP_TIM13_IRQHandler k env r).trace = r.trace ++ added ∧
      added = [Event.COUNT_IRQ IRQn.TIM8_UP_TIM13_IRQn,
               Event.HAL_TIM_CLEAR_IT_htim8_UPDATE,
               Event.disarm_with_error 0 MotorError.ERROR_TIMER_UPDATE_MISSED,
               Event.disarm_with_error 1 MotorError.ERROR_TIMER_UPDATE_MISSED] ∧
      Event.sampling_cb ∉ added ∧
      (∀ irq, Event.NVIC_STIR irq ∉ added) ∧
      (∀ tim ch v, Event.write_CCR tim ch v ∉ added) ∧
      (∀ m ts c, Event.current_meas_cb m ts c ∉ added) ∧
      (∀ m ts, Event.pwm_update_cb m ts ∉ added) ∧
      (TIM8_UP_TIM13_IRQHandler k env r).hw =
        env.effect (Event.disarm_with_error 1 MotorError.ERROR_TIMER_UPDATE_MISSED)
          (env.effect (Event.disarm_with_error 0 MotorError.ERROR_TIMER_UPDATE_MISSED)
            r.hw) := by
  refine ⟨_, ?_, rfl, ?_, ?_, ?_, ?_, ?_, ?_⟩
  · simp [TIM8_UP_TIM13_IRQHandler, h]
  · simp
  · simp
  · simp
  · simp
  · simp
  · simp [TIM8_UP_TIM13_IRQHandler, h]

/-- C1 at the reset state: the timer reports count-up while `counting_down_` is still
`false`. -/
theorem TIM8_update_missed_disarms_both_witness :
    counting_down stm32f405 Run.init.hw.TIM8.CR1 = Run.init.hw.counting_down_ ∧
    ∃ added : List (Event Int),
      (TIM8_UP_TIM13_IRQHandler stm32f405 Env.idle Run.init).trace = Run.init.trace ++ added ∧
      added = [Event.COUNT_IRQ IRQn.TIM8_UP_TIM13_IRQn,
               Event.HAL_TIM_CLEAR_IT_htim8_UPDATE,
               Event.disarm_with_error 0 MotorError.ERROR_TIMER_UPDATE_MISSED,
               Event.disarm_with_error 1 MotorError.ERROR_TIMER_UPDATE_MISSED] ∧
      Event.sampling_cb ∉ added ∧
      (∀ irq, Event.NVIC_STIR irq ∉ added) ∧
      (∀ tim ch v, Event.write_CCR tim ch v ∉ added) ∧
      (∀ m ts c, Event.current_meas_cb m ts c ∉ added) ∧
      (∀ m ts, Event.pwm_update_cb m ts ∉ added) ∧
      (TIM8_UP_TIM13_IRQHandler stm32f405 Env.idle Run.init).hw =
        Env.idle.effect (Event.disarm_with_error 1 MotorError.ERROR_TIMER_UPDATE_MISSED)
          (Env.idle.effect (Event.disarm_with_error 0 MotorError.ERROR_TIMER_UPDATE_MISSED)
            Run.init.hw) :=
  ⟨by decide, TIM8_update_missed_disarms_both stm32f405 Env.idle Run.init (by decide)⟩

/-! ## The control tick: locals, termination of the wait, the deadline check -/

theorem fetch_or_disarm_timestamp [Neg F] [Sub F] (k : Consts) (env : Env F)
    (loc : Locals F) (r : Run F) :
    (fetch_or_disarm k env loc r).2.1.timestamp = loc.timestamp := by
  unfold fetch_or_disarm
  dsimp only
  split <;> rfl

/-- The busy-wait returns as soon as the flag it polls is seen: if `ADC2->SR` shows
`EOC` after `n` iterations of hardware progress, any fuel of at least `n` suffices. -/
theorem dc_calib_wait_returns (k : Consts) (env : Env F) (n fuel : Nat) (r : Run F)
    (hn : n ≤ fuel) (h : ((env.spin)^[n] r.hw).ADC2.SR &&& k.ADC_SR_EOC ≠ 0) :
    ∃ r1, dc_calib_wait k env fuel r = some r1 := by
  induction fuel generalizing n r with
  | zero =>
    have hn0 : n = 0 := Nat.le_zero.mp hn
    subst hn0
    simp only [Function.iterate_zero, id_eq] at h
    exact ⟨r, by simp [dc_calib_wait, h]⟩
  | succ fuel ih =>
    by_cases hr : r.hw.ADC2.SR &&& k.ADC_SR_EOC = 0
    · cases n with
      | zero => exact absurd hr h
      | succ n =>
        have h1 := ih n { r with hw := env.spin r.hw } (Nat.le_of_succ_le_succ hn)
          (by simpa [Function.iterate_succ_apply] using h)
        simpa [dc_calib_wait, hr] using h1
    · exact ⟨r, by simp [dc_calib_wait, hr]⟩

/-- The control tick returns whenever the busy-wait sees its flag within the fuel. -/
theorem ControlLoop_IRQHandler_returns [Zero F] [Neg F] [Sub F] (k : Consts)
    (env : Env F) (n fuel : Nat) (r : Run F) (hn : n ≤ fuel)
    (h : ((env.spin)^[n] (ControlLoop_before_wait k env r).2.hw).ADC2.SR
          &&& k.ADC_SR_EOC ≠ 0) :
    ∃ out, ControlLoop_IRQHandler k env fuel r = some out := by
  obtain ⟨r1, h1⟩ := dc_calib_wait_returns k env n fuel _ hn h
  unfold ControlLoop_IRQHandler ControlLoop_before_deadline
  simp [h1]

theorem fetch_and_reset_adcs_of_lacks [Neg F] [Sub F] (k : Consts) (env : Env F)
    (c0 c1 : Option (Iph_ABC_t F)) (r : Run F) (h : lacks_completion k r.hw) :
    fetch_and_reset_adcs k env c0 c1 r = (false, c0, c1, r) := by
  unfold lacks_completion at h
  unfold fetch_and_reset_adcs
  dsimp only
  rw [if_pos]
  simp only [Bool.not_eq_true', Bool.and_eq_false_imp, Bool.and_eq_true, beq_iff_eq,
    beq_eq_false_iff_ne, ne_eq]
  intro h12 h3
  rcases h with h | h | h
  · exact h h12.1
  · exact h h12.2
  · exact h h3

theorem fetch_and_reset_adcs_of_complete [Neg F] [Sub F] (k : Consts) (env : Env F)
    (c0 c1 : Option (Iph_ABC_t F)) (r : Run F) (h : ¬ lacks_completion k r.hw) :
    (fetch_and_reset_adcs k env c0 c1 r).1 = true := by
  unfold lacks_completion at h
  simp only [not_or, ne_eq, not_not] at h
  unfold fetch_and_reset_adcs
  dsimp only
  rw [if_neg]
  simp [h.1, h.2.1, h.2.2]

/-- C3 (counterexample): with every completion flag set and the overrun bit of ADC2
set, `fetch_and_reset_adcs` returns true: an overrun does not make the fetch not-ok. -/
theorem fetch_and_reset_adcs_overrun_counterexample :
    Run.overrun.hw.ADC2.SR &&& stm32f405.ADC_SR_OVR ≠ 0 ∧
    (fetch_and_reset_adcs stm32f405 Env.idle none none Run.overrun).1 = true := by
  decide

/-- C3 (amended): `fetch_and_reset_adcs` returns false whenever one of the three
converters lacks an expected completion flag, and only then (the overrun bits are not
examined); in every such case the run is returned as it was - the three status
registers and the trace are unchanged - and both outputs keep the values passed in,
so a repeated call on the same state is not-ok again. -/
theorem fetch_and_reset_adcs_not_ok [Neg F] [Sub F] (k : Consts) (env : Env F)
    (c0 c1 : Option (Iph_ABC_t F)) (r : Run F) :
    (lacks_completion k r.hw → fetch_and_reset_adcs k env c0 c1 r = (false, c0, c1, r)) ∧
    ((fetch_and_reset_adcs k env c0 c1 r).1 = false → lacks_completion k r.hw) := by
  refine ⟨fetch_and_reset_adcs_of_lacks k env c0 c1 r, fun h => ?_⟩
  by_contra hl
  rw [fetch_and_reset_adcs_of_complete k env c0 c1 r hl] at h
  exact absurd h (by decide)

/-- C3 (amended) at the reset state, where no converter has finished. -/
theorem fetch_and_reset_adcs_not_ok_witness :
    lacks_completion stm32f405 Run.init.hw ∧
    fetch_and_reset_adcs stm32f405 Env.idle none none Run.init =
      (false, none, none, Run.init) :=
  ⟨by decide,
    (fetch_and_reset_adcs_not_ok stm32f405 Env.idle none none Run.init).1 (by decide)⟩

/-! ### Clearing of the status flags -/

theorem testBit_not32 (a i : Nat) :
    (not32 a).testBit i = (decide (i < 32) && !a.testBit i) := by
  have h : not32 a = 2 ^ 32 - (a % 2 ^ 32 + 1) := by
    unfold not32
    omega
  rw [h, Nat.testBit_two_pow_sub_succ (Nat.mod_lt _ (by decide)), Nat.testBit_mod_two_pow]
  by_cases hi : i < 32 <;> simp [hi]

/-- After a store of `~m` to a write-0-to-clear register, every bit of `m` reads 0. -/
theorem land_not32_land (x m b : Nat) (hb : ∀ i, b.testBit i = true → m.testBit i = true) :
    (x &&& not32 m) &&& b = 0 := by
  apply Nat.eq_of_testBit_eq
  intro i
  rw [Nat.testBit_land, Nat.testBit_land, testBit_not32, Nat.zero_testBit]
  by_cases h : b.testBit i = true
  · simp [hb i h]
  · simp [h]

theorem land_not32_self (x m : Nat) : (x &&& not32 m) &&& m = 0 :=
  land_not32_land x m m (fun _ h => h)

theorem land_not32_or3 (x a b c : Nat) :
    (x &&& not32 (a ||| b ||| c)) &&& a = 0 ∧
    (x &&& not32 (a ||| b ||| c)) &&& b = 0 ∧
    (x &&& not32 (a ||| b ||| c)) &&& c = 0 := by
  refine ⟨?_, ?_, ?_⟩ <;>
  · apply land_not32_land
    intro i h
    simp [Nat.testBit_lor, h]

/-- The machine that an ok fetch leaves: the state after `vbus_sense_adc_cb` with the
three stores to the status registers applied. -/
theorem fetch_and_reset_adcs_ok_hw [Neg F] [Sub F] (k : Consts) (env : Env F)
    (c0 c1 : Option (Iph_ABC_t F)) (r : Run F)
    (h : (fetch_and_reset_adcs k env c0 c1 r).1 = true) :
    let pre := env.effect (Event.vbus_sense_adc_cb r.hw.ADC1.JDR1) r.hw
    let out := (fetch_and_reset_adcs k env c0 c1 r).2.2.2
    out.hw.ADC1.SR = pre.ADC1.SR &&& not32 k.ADC_SR_JEOC ∧
    out.hw.ADC2.SR =
      pre.ADC2.SR &&& not32 (k.ADC_SR_EOC ||| k.ADC_SR_JEOC ||| k.ADC_SR_OVR) ∧
    out.hw.ADC3.SR =
      pre.ADC3.SR &&& not32 (k.ADC_SR_EOC ||| k.ADC_SR_JEOC ||| k.ADC_SR_OVR) := by
  have hl : ¬ lacks_completion k r.hw := by
    intro hl
    rw [fetch_and_reset_adcs_of_lacks k env c0 c1 r hl] at h
    exact Bool.false_ne_true h
  unfold lacks_completion at hl
  simp only [not_or, ne_eq, not_not] at hl
  unfold fetch_and_reset_adcs
  dsimp only
  rw [if_neg (by simp [hl.1, hl.2.1, hl.2.2])]
  simp [write_ADC_SR]

/-- C9 (counterexample): ADC1 enters with its regular end-of-conversion bit set next
to `JEOC`; the fetch returns true and that bit is still set in `ADC1->SR` on return. -/
theorem fetch_and_reset_adcs_adc1_counterexample :
    (fetch_and_reset_adcs stm32f405 Env.idle none none Run.adc1_regular).1 = true ∧
    (fetch_and_reset_adcs stm32f405 Env.idle none none Run.adc1_regular).2.2.2.hw.ADC1.SR
      &&& stm32f405.ADC_SR_EOC ≠ 0 := by
  decide

/-- C9 (amended): whenever `fetch_and_reset_adcs` returns true, on return `JEOC` is
zero in `ADC1->SR`, and `EOC`, `JEOC` and `OVR` are all zero in `ADC2->SR` and in
`ADC3->SR`, for every prior value of the registers; `ADC1->SR` is its prior value AND
`~JEOC`, so its other bits are not cleared. -/
theorem fetch_and_reset_adcs_clears_flags [Neg F] [Sub F] (k : Consts) (env : Env F)
    (c0 c1 : Option (Iph_ABC_t F)) (r : Run F)
    (h : (fetch_and_reset_adcs k env c0 c1 r).1 = true) :
    (fetch_and_reset_adcs k env c0 c1 r).2.2.2.hw.ADC1.SR &&& k.ADC_SR_JEOC = 0 ∧
    (fetch_and_reset_adcs k env c0 c1 r).2.2.2.hw.ADC2.SR &&& k.ADC_SR_EOC = 0 ∧
    (fetch_and_reset_adcs k env c0 c1 r).2.2.2.hw.ADC2.SR &&& k.ADC_SR_JEOC = 0 ∧
    (fetch_and_reset_adcs k env c0 c1 r).2.2.2.hw.ADC2.SR &&& k.ADC_SR_OVR = 0 ∧
    (fetch_and_reset_adcs k env c0 c1 r).2.2.2.hw.ADC3.SR &&& k.ADC_SR_EOC = 0 ∧
    (fetch_and_reset_adcs k env c0 c1 r).2.2.2.hw.ADC3.SR &&& k.ADC_SR_JEOC = 0 ∧
    (fetch_and_reset_adcs k env c0 c1 r).2.2.2.hw.ADC3.SR &&& k.ADC_SR_OVR = 0 ∧
    (fetch_and_reset_adcs k env c0 c1 r).2.2.2.hw.ADC1.SR =
      (env.effect (Event.vbus_sense_adc_cb r.hw.ADC1.JDR1) r.hw).ADC1.SR
        &&& not32 k.ADC_SR_JEOC := by
  obtain ⟨h1, h2, h3⟩ := fetch_and_reset_adcs_ok_hw k env c0 c1 r h
  rw [h2, h3]
  refine ⟨?_, (land_not32_or3 _ _ _ _).1, (land_not32_or3 _ _ _ _).2.1,
    (land_not32_or3 _ _ _ _).2.2, (land_not32_or3 _ _ _ _).1,
    (land_not32_or3 _ _ _ _).2.1, (land_not32_or3 _ _ _ _).2.2, h1⟩
  rw [h1]
  exact land_not32_self _ _

/-- C9 (amended) on a machine whose converters have all finished, ADC2 with an overrun
on top. -/
theorem fetch_and_reset_adcs_clears_flags_witness :
    (fetch_and_reset_adcs stm32f405 Env.idle none none Run.overrun).1 = true ∧
    (fetch_and_reset_adcs stm32f405 Env.idle none none Run.overrun).2.2.2.hw.ADC1.SR
      &&& stm32f405.ADC_SR_JEOC = 0 ∧
    (fetch_and_reset_adcs stm32f405 Env.idle none none Run.overrun).2.2.2.hw.ADC2.SR
      &&& stm32f405.ADC_SR_EOC = 0 ∧
    (fetch_and_reset_adcs stm32f405 Env.idle none none Run.overrun).2.2.2.hw.ADC2.SR
      &&& stm32f405.ADC_SR_JEOC = 0 ∧
    (fetch_and_reset_adcs stm32f405 Env.idle none none Run.overrun).2.2.2.hw.ADC2.SR
      &&& stm32f405.ADC_SR_OVR = 0 ∧
    (fetch_and_reset_adcs stm32f405 Env.idle none none Run.overrun).2.2.2.hw.ADC3.SR
      &&& stm32f405.ADC_SR_EOC = 0 ∧
    (fetch_and_reset_adcs stm32f405 Env.idle none none Run.overrun).2.2.2.hw.ADC3.SR
      &&& stm32f405.ADC_SR_JEOC = 0 ∧
    (fetch_and_reset_adcs stm32f405 Env.idle none none Run.overrun).2.2.2.hw.ADC3.SR
      &&& stm32f405.ADC_SR_OVR = 0 ∧
    (fetch_and_reset_adcs stm32f405 Env.idle none none Run.overrun).2.2.2.hw.ADC1.SR =
      (Env.idle.effect (Event.vbus_sense_adc_cb Run.overrun.hw.ADC1.JDR1)
        Run.overrun.hw).ADC1.SR &&& not32 stm32f405.ADC_SR_JEOC :=
  ⟨by decide,
    fetch_and_reset_adcs_clears_flags stm32f405 Env.idle none none Run.overrun (by decide)⟩

/-! ## The control tick: the two ADC rounds -/

theorem dc_calib_wait_trace (k : Consts) (env : Env F) (fuel : Nat) (r r1 : Run F)
    (h : dc_calib_wait k env fuel r = some r1) : r1.trace = r.trace := by
  induction fuel generalizing r with
  | zero =>
    unfold dc_calib_wait at h
    split at h
    · exact absurd h (by simp)
    · simp only [Option.some.injEq] at h
      rw [← h]
  | succ fuel ih =>
    unfold dc_calib_wait at h
    split at h
    · have h1 := ih { r with hw := env.spin r.hw } h
      exact h1
    · simp only [Option.some.injEq] at h
      rw [← h]

theorem fetch_and_reset_adcs_countP [Neg F] [Sub F] (k : Consts) (env : Env F)
    (c0 c1 : Option (Iph_ABC_t F)) (r : Run F) (m : Fin 2) (e : MotorError) :
    List.countP (Event.is_disarm m e) (fetch_and_reset_adcs k env c0 c1 r).2.2.2.trace =
      List.countP (Event.is_disarm m e) r.trace := by
  unfold fetch_and_reset_adcs
  dsimp only
  split
  · rfl
  · simp [List.countP_append, Event.is_disarm]

theorem countP_bad_timing_pair (m : Fin 2) :
    List.countP (Event.is_disarm m MotorError.ERROR_BAD_TIMING)
      [(Event.disarm_with_error 0 MotorError.ERROR_BAD_TIMING : Event F),
       Event.disarm_with_error 1 MotorError.ERROR_BAD_TIMING] = 1 := by
  fin_cases m <;> simp [List.countP_cons, Event.is_disarm]

theorem fetch_or_disarm_fst [Neg F] [Sub F] (k : Consts) (env : Env F) (loc : Locals F)
    (r : Run F) :
    (fetch_or_disarm k env loc r).1 =
      (fetch_and_reset_adcs k env loc.current0 loc.current1 r).1 := by
  unfold fetch_or_disarm
  dsimp only
  split <;> rfl

theorem fetch_or_disarm_trace [Neg F] [Sub F] (k : Consts) (env : Env F) (loc : Locals F)
    (r : Run F) :
    (fetch_or_disarm k env loc r).2.2.trace =
      (fetch_and_reset_adcs k env loc.current0 loc.current1 r).2.2.2.trace ++
        (if (fetch_and_reset_adcs k env loc.current0 loc.current1 r).1 then []
         else [Event.disarm_with_error 0 MotorError.ERROR_BAD_TIMING,
               Event.disarm_with_error 1 MotorError.ERROR_BAD_TIMING]) := by
  unfold fetch_or_disarm
  dsimp only
  cases (fetch_and_reset_adcs k env loc.current0 loc.current1 r).1 <;> simp

theorem fetch_or_disarm_countP [Neg F] [Sub F] (k : Consts) (env : Env F) (loc : Locals F)
    (r : Run F) (m : Fin 2) :
    List.countP (Event.is_disarm m MotorError.ERROR_BAD_TIMING)
        (fetch_or_disarm k env loc r).2.2.trace =
      List.countP (Event.is_disarm m MotorError.ERROR_BAD_TIMING) r.trace +
        (if (fetch_and_reset_adcs k env loc.current0 loc.current1 r).1 then 0 else 1) := by
  rw [fetch_or_disarm_trace, List.countP_append, fetch_and_reset_adcs_countP]
  cases (fetch_and_reset_adcs k env loc.current0 loc.current1 r).1
  · simp only [Bool.false_eq_true, if_false]
    rw [countP_bad_timing_pair]
  · simp

theorem ControlLoop_measure_countP [Zero F] (k : Consts) (env : Env F) (loc : Locals F)
    (r : Run F) (m : Fin 2) (e : MotorError) :
    List.countP (Event.is_disarm m e) (ControlLoop_measure k env loc r).2.trace =
      List.countP (Event.is_disarm m e) r.trace := by
  unfold ControlLoop_measure
  simp [List.countP_append, Event.is_disarm]

theorem ControlLoop_update_countP (k : Consts) (env : Env F) (loc : Locals F)
    (r : Run F) (m : Fin 2) (e : MotorError) :
    List.countP (Event.is_disarm m e) (ControlLoop_update k env loc r).trace =
      List.countP (Event.is_disarm m e) r.trace := by
  unfold ControlLoop_update
  simp [List.countP_append, Event.is_disarm]

theorem ControlLoop_deadline_countP (k : Consts) (env : Env F) (loc : Locals F)
    (r : Run F) (m : Fin 2) :
    List.countP (Event.is_disarm m MotorError.ERROR_BAD_TIMING)
        (ControlLoop_deadline k env loc r).trace =
      List.countP (Event.is_disarm m MotorError.ERROR_BAD_TIMING) r.trace := by
  unfold ControlLoop_deadline
  dsimp only
  split <;> simp [List.countP_append, Event.is_disarm]

theorem land_eq_of_land_lor_eq (x a b : Nat) (h : x &&& (a ||| b) = a ||| b) :
    x &&& b = b := by
  apply Nat.eq_of_testBit_eq
  intro i
  have hi := congrArg (fun n => Nat.testBit n i) h
  simp only [Nat.testBit_land, Nat.testBit_lor] at hi
  rw [Nat.testBit_land]
  cases hb : b.testBit i
  · simp
  · simpa [hb] using hi

/-- A converter whose status register does not show `JEOC` makes the fetch not-ok. -/
theorem lacks_completion_of_no_JEOC (k : Consts) (m : Machine) (a : AdcId)
    (h : m.SR a &&& k.ADC_SR_JEOC ≠ k.ADC_SR_JEOC) : lacks_completion k m := by
  unfold lacks_completion
  cases a
  · exact Or.inl h
  · exact Or.inr (Or.inl (fun h2 => h (land_eq_of_land_lor_eq _ _ _ h2)))
  · exact Or.inr (Or.inr (fun h3 => h (land_eq_of_land_lor_eq _ _ _ h3)))

/-- C4: in every execution of the control tick that passes its busy-wait, the handler
returns, and for each motor the number of `disarm_with_error(ERROR_BAD_TIMING)` calls
it makes is one for each ADC round whose `fetch_and_reset_adcs` returned false: none
when both rounds are ok. If some converter shows no `JEOC` at either fetch (a stuck
converter), both fetches return false and each motor is disarmed with
`ERROR_BAD_TIMING` in both rounds. -/
theorem ControlLoop_bad_timing [Zero F] [Neg F] [Sub F] (k : Consts) (env : Env F)
    (fuel : Nat) (r : Run F) (ok2 : Bool) (loc : Locals F) (r1 : Run F)
    (h : ControlLoop_before_deadline k env fuel r = some (ok2, loc, r1)) :
    ∃ (rwait out : Run F),
      dc_calib_wait k env fuel (ControlLoop_before_wait k env r).2 = some rwait ∧
      ControlLoop_IRQHandler k env fuel r = some out ∧
      ok2 = (fetch_and_reset_adcs k env (ControlLoop_before_wait k env r).1.current0
              (ControlLoop_before_wait k env r).1.current1 rwait).1 ∧
      (∀ m : Fin 2,
        List.countP (Event.is_disarm m MotorError.ERROR_BAD_TIMING) out.trace =
          List.countP (Event.is_disarm m MotorError.ERROR_BAD_TIMING) r.trace
          + (if (fetch_and_reset_adcs k env none none
                  (r.log (Event.COUNT_IRQ IRQn.ControlLoop_IRQn))).1 then 0 else 1)
          + (if ok2 then 0 else 1)) ∧
      (∀ a : AdcId,
        r.hw.SR a &&& k.ADC_SR_JEOC ≠ k.ADC_SR_JEOC →
        rwait.hw.SR a &&& k.ADC_SR_JEOC ≠ k.ADC_SR_JEOC →
        (fetch_and_reset_adcs k env none none
          (r.log (Event.COUNT_IRQ IRQn.ControlLoop_IRQn))).1 = false ∧
        ok2 = false ∧
        ∀ m : Fin 2,
          List.countP (Event.is_disarm m MotorError.ERROR_BAD_TIMING) out.trace =
            List.countP (Event.is_disarm m MotorError.ERROR_BAD_TIMING) r.trace + 2) := by
  have h0 := h
  unfold ControlLoop_before_deadline at h
  dsimp only at h
  split at h
  · exact absurd h (by simp)
  · rename_i rwait hw
    simp only [Option.some.injEq, Prod.mk.injEq] at h
    obtain ⟨hok, hloc, hr1⟩ := h
    have hok2 : ok2 = (fetch_and_reset_adcs k env (ControlLoop_before_wait k env r).1.current0
        (ControlLoop_before_wait k env r).1.current1 rwait).1 := by
      rw [← hok, fetch_or_disarm_fst]
    have hcount : ∀ m : Fin 2,
        List.countP (Event.is_disarm m MotorError.ERROR_BAD_TIMING)
            (ControlLoop_deadline k env loc r1).trace =
          List.countP (Event.is_disarm m MotorError.ERROR_BAD_TIMING) r.trace
          + (if (fetch_and_reset_adcs k env none none
                  (r.log (Event.COUNT_IRQ IRQn.ControlLoop_IRQn))).1 then 0 else 1)
          + (if ok2 then 0 else 1) := by
      intro m
      rw [ControlLoop_deadline_countP, ← hr1, ControlLoop_update_countP,
        fetch_or_disarm_countP, dc_calib_wait_trace k env fuel _ rwait hw, ← hok2]
      unfold ControlLoop_before_wait
      dsimp only
      rw [ControlLoop_measure_countP]
      unfold ControlLoop_round1
      dsimp only
      rw [fetch_or_disarm_countP]
      simp [List.countP_append, Event.is_disarm]
    refine ⟨rwait, ControlLoop_deadline k env loc r1, hw, ?_, hok2, hcount, ?_⟩
    · simp [ControlLoop_IRQHandler, h0]
    · intro a ha1 ha2
      have e1 : (fetch_and_reset_adcs k env none none
          (r.log (Event.COUNT_IRQ IRQn.ControlLoop_IRQn))).1 = false := by
        rw [fetch_and_reset_adcs_of_lacks k env none none
          (r.log (Event.COUNT_IRQ IRQn.ControlLoop_IRQn))
          (lacks_completion_of_no_JEOC k _ a ha1)]
      have e2 : ok2 = false := by
        rw [hok2, fetch_and_reset_adcs_of_lacks k env _ _ rwait
          (lacks_completion_of_no_JEOC k _ a ha2)]
      refine ⟨e1, e2, fun m => ?_⟩
      rw [hcount m, e1, e2]
      simp

/-- C4 with a first converter that never shows `JEOC`: the execution passes the wait
and the second fetch is not-ok. -/
theorem ControlLoop_bad_timing_witness :
    ∃ (ok2 : Bool) (loc : Locals Int) (r1 : Run Int),
      ControlLoop_before_deadline stm32f405 Env.stuck 0 Run.stuck = some (ok2, loc, r1) ∧
      ok2 = false ∧
      ∃ (rwait out : Run Int),
        dc_calib_wait stm32f405 Env.stuck 0
          (ControlLoop_before_wait stm32f405 Env.stuck Run.stuck).2 = some rwait ∧
        ControlLoop_IRQHandler stm32f405 Env.stuck 0 Run.stuck = some out ∧
        ok2 = (fetch_and_reset_adcs stm32f405 Env.stuck
                (ControlLoop_before_wait stm32f405 Env.stuck Run.stuck).1.current0
                (ControlLoop_before_wait stm32f405 Env.stuck Run.stuck).1.current1 rwait).1 ∧
        (∀ m : Fin 2,
          List.countP (Event.is_disarm m MotorError.ERROR_BAD_TIMING) out.trace =
            List.countP (Event.is_disarm m MotorError.ERROR_BAD_TIMING) Run.stuck.trace
            + (if (fetch_and_reset_adcs stm32f405 Env.stuck none none
                    (Run.stuck.log (Event.COUNT_IRQ IRQn.ControlLoop_IRQn))).1 then 0 else 1)
            + (if ok2 then 0 else 1)) ∧
        (∀ a : AdcId,
          Run.stuck.hw.SR a &&& stm32f405.ADC_SR_JEOC ≠ stm32f405.ADC_SR_JEOC →
          rwait.hw.SR a &&& stm32f405.ADC_SR_JEOC ≠ stm32f405.ADC_SR_JEOC →
          (fetch_and_reset_adcs stm32f405 Env.stuck none none
            (Run.stuck.log (Event.COUNT_IRQ IRQn.ControlLoop_IRQn))).1 = false ∧
          ok2 = false ∧
          ∀ m : Fin 2,
            List.countP (Event.is_disarm m MotorError.ERROR_BAD_TIMING) out.trace =
              List.countP (Event.is_disarm m MotorError.ERROR_BAD_TIMING) Run.stuck.trace
                + 2) :=
  ⟨_, _, _, rfl, rfl,
    ControlLoop_bad_timing stm32f405 Env.stuck 0 Run.stuck _ _ _ rfl⟩

/-! ## The sampling tick: accepted updates -/

theorem Env.idle_keeps_tick : Env.idle.keeps_tick := fun _ _ => ⟨rfl, rfl⟩

@[simp] theorem write_CCR_timestamp (tim : TimId) (ch : CcrId) (v : Nat) (r : Run F) :
    (write_CCR tim ch v r).hw.timestamp_ = r.hw.timestamp_ := by
  cases tim <;> cases ch <;> rfl

@[simp] theorem write_CCR_counting_down (tim : TimId) (ch : CcrId) (v : Nat) (r : Run F) :
    (write_CCR tim ch v r).hw.counting_down_ = r.hw.counting_down_ := by
  cases tim <;> cases ch <;> rfl

/-- One accepted update event: the direction read differs from the stored one. -/
theorem TIM8_accepted (k : Consts) (env : Env F) (hk : env.keeps_tick) (r : Run F)
    (h : counting_down k r.hw.TIM8.CR1 ≠ r.hw.counting_down_) :
    (TIM8_UP_TIM13_IRQHandler k env r).hw.timestamp_ = add32 r.hw.timestamp_ k.increment ∧
    (TIM8_UP_TIM13_IRQHandler k env r).hw.counting_down_ = counting_down k r.hw.TIM8.CR1 ∧
    (TIM8_UP_TIM13_IRQHandler k env r).trace =
      r.trace ++ accepted_events k r.hw.TIM8.CR1 := by
  have h1 : (r.hw.counting_down_ == counting_down k r.hw.TIM8.CR1) = false := by
    cases hc : r.hw.counting_down_ <;> cases hd : counting_down k r.hw.TIM8.CR1 <;>
      simp_all
  unfold TIM8_UP_TIM13_IRQHandler accepted_events
  simp only [Run.log_hw, h1, Bool.false_eq_true, if_false]
  cases hd : counting_down k r.hw.TIM8.CR1
  · simp [(hk _ _).1, (hk _ _).2]
  · simp

theorem alternates_cons (k : Consts) (stored : Bool) (cr1 : Nat) (rest : List Nat)
    (h : alternates k stored (cr1 :: rest) = true) :
    counting_down k cr1 ≠ stored ∧ alternates k (counting_down k cr1) rest = true := by
  unfold alternates at h
  simp only [Bool.and_eq_true, bne_iff_ne, ne_eq] at h
  exact h

/-- The first event of an alternating run, seen from the run before it. -/
theorem update_events_head (k : Consts) (env : Env F) (hk : env.keeps_tick)
    (cr1 : Nat) (rest : List Nat) (r : Run F)
    (h : alternates k r.hw.counting_down_ (cr1 :: rest) = true) :
    (TIM8_UP_TIM13_IRQHandler k env (timer_presents cr1 r)).hw.timestamp_ =
      add32 r.hw.timestamp_ k.increment ∧
    (TIM8_UP_TIM13_IRQHandler k env (timer_presents cr1 r)).trace =
      r.trace ++ accepted_events k cr1 ∧
    alternates k (TIM8_UP_TIM13_IRQHandler k env (timer_presents cr1 r)).hw.counting_down_
      rest = true := by
  obtain ⟨h1, h2⟩ := alternates_cons k _ cr1 rest h
  obtain ⟨a, b, c⟩ := TIM8_accepted k env hk (timer_presents cr1 r) (by simpa using h1)
  refine ⟨by simpa using a, by simpa using c, ?_⟩
  rw [b]
  simpa using h2

/-- The trace of an alternating run of update events. -/
theorem update_events_trace (k : Consts) (env : Env F) (hk : env.keeps_tick)
    (crs : List Nat) (r : Run F) (h : alternates k r.hw.counting_down_ crs = true) :
    (update_events k env crs r).trace = r.trace ++ accepted_trace k crs := by
  induction crs generalizing r with
  | nil => simp [update_events, accepted_trace]
  | cons cr1 rest ih =>
    obtain ⟨_, b, c⟩ := update_events_head k env hk cr1 rest r h
    unfold update_events accepted_trace
    rw [ih _ c, b, List.append_assoc]

/-- The timestamp after an alternating run of update events. -/
theorem update_events_timestamp (k : Consts) (env : Env F) (hk : env.keeps_tick)
    (crs : List Nat) (r : Run F) (hr : r.hw.timestamp_ < 2 ^ 32)
    (h : alternates k r.hw.counting_down_ crs = true) :
    (update_events k env crs r).hw.timestamp_ =
      (r.hw.timestamp_ + crs.length * k.increment) % 2 ^ 32 := by
  induction crs generalizing r with
  | nil =>
    simp only [update_events, List.length_nil, Nat.zero_mul, Nat.add_zero]
    exact (Nat.mod_eq_of_lt hr).symm
  | cons cr1 rest ih =>
    obtain ⟨a, _, c⟩ := update_events_head k env hk cr1 rest r h
    unfold update_events
    rw [ih _ (by rw [a]; exact Nat.mod_lt _ (by decide)) c, a, List.length_cons,
      Nat.succ_mul]
    unfold add32
    omega

/-- Each event of an alternating run advances the timestamp by one increment. -/
theorem update_events_step (k : Consts) (env : Env F) (hk : env.keeps_tick)
    (crs : List Nat) (r : Run F) (h : alternates k r.hw.counting_down_ crs = true)
    (n : Nat) (hn : n < crs.length) :
    (update_events k env (crs.take (n + 1)) r).hw.timestamp_ =
      add32 (update_events k env (crs.take n) r).hw.timestamp_ k.increment := by
  induction crs generalizing r n with
  | nil => exact absurd hn (by simp)
  | cons cr1 rest ih =>
    obtain ⟨a, _, c⟩ := update_events_head k env hk cr1 rest r h
    cases n with
    | zero => simpa [update_events] using a
    | succ n =>
      simp only [List.take_succ_cons, update_events]
      exact ih _ c n (by simpa using hn)

theorem accepted_events_countP (k : Consts) (cr1 : Nat) :
    List.countP Event.is_any_disarm (accepted_events k cr1 : List (Event F)) = 0 ∧
    List.countP Event.is_sampling (accepted_events k cr1 : List (Event F)) =
      (if counting_down k cr1 then 0 else 1) ∧
    List.countP Event.is_raise (accepted_events k cr1 : List (Event F)) =
      (if counting_down k cr1 then 0 else 1) := by
  unfold accepted_events
  cases counting_down k cr1 <;>
    simp [List.countP_cons, Event.is_any_disarm, Event.is_sampling, Event.is_raise]

theorem accepted_trace_no_disarm (k : Consts) (crs : List Nat) :
    List.countP Event.is_any_disarm (accepted_trace k crs : List (Event F)) = 0 := by
  induction crs with
  | nil => rfl
  | cons cr1 rest ih =>
    unfold accepted_trace
    rw [List.countP_append, ih, (accepted_events_countP k cr1).1]

/-- In an alternating run the count-up events are every second one. -/
theorem accepted_trace_count_up (k : Consts) (stored : Bool) (crs : List Nat)
    (h : alternates k stored crs = true) :
    List.countP Event.is_sampling (accepted_trace k crs : List (Event F)) =
      (if stored then (crs.length + 1) / 2 else crs.length / 2) ∧
    List.countP Event.is_raise (accepted_trace k crs : List (Event F)) =
      (if stored then (crs.length + 1) / 2 else crs.length / 2) := by
  induction crs generalizing stored with
  | nil => cases stored <;> simp [accepted_trace]
  | cons cr1 rest ih =>
    obtain ⟨h1, h2⟩ := alternates_cons k stored cr1 rest h
    obtain ⟨i1, i2⟩ := ih _ h2
    unfold accepted_trace
    rw [List.countP_append, List.countP_append, i1, i2,
      (accepted_events_countP k cr1).2.1, (accepted_events_countP k cr1).2.2]
    cases hs : stored <;> cases hd : counting_down k cr1 <;>
      first
        | (simp_all; done)
        | (simp_all; omega)

theorem length_down_up_append (n : Nat) (l : List Nat) :
    (down_up n ++ l).length = 2 * n + l.length := by
  induction n with
  | zero => simp [down_up]
  | succ n ih =>
    simp only [down_up, List.cons_append, List.length_cons, ih]
    omega

theorem alternates_down_up_append (n : Nat) (l : List Nat)
    (h : alternates stm32f405 false l = true) :
    alternates stm32f405 false (down_up n ++ l) = true := by
  induction n with
  | zero => simpa [down_up] using h
  | succ n ih =>
    have h16 : counting_down stm32f405 16 = true := by decide
    have h0 : counting_down stm32f405 0 = false := by decide
    show alternates stm32f405 false (16 :: 0 :: (down_up n ++ l)) = true
    rw [alternates, alternates, h16, h0, ih]
    rfl

theorem update_events_down_up_timestamp (n : Nat) (l : List Nat)
    (h : alternates stm32f405 false l = true) :
    (update_events stm32f405 Env.idle (down_up n ++ l) Run.init).hw.timestamp_ =
      ((2 * n + l.length) * 10500) % 2 ^ 32 := by
  rw [update_events_timestamp stm32f405 Env.idle Env.idle_keeps_tick _ Run.init
    (by decide) (alternates_down_up_append n l h), length_down_up_append]
  have e1 : Run.init.hw.timestamp_ = 0 := rfl
  have e2 : stm32f405.increment = 10500 := rfl
  rw [e1, e2, Nat.zero_add]

/-- C5 (counterexample): from the reset state on the v3 board, 409045 update events
whose directions alternate. After the 409044th the timestamp is 4294962000; the next
one, again an accepted transition, leaves it at 5204: it has not increased, and it is
not the previous value plus one increment. -/
theorem timestamp_wraps_counterexample :
    alternates stm32f405 Run.init.hw.counting_down_ (down_up 204522 ++ [16]) = true ∧
    (update_events stm32f405 Env.idle (down_up 204522 ++ []) Run.init).hw.timestamp_ =
      4294962000 ∧
    (update_events stm32f405 Env.idle (down_up 204522 ++ [16]) Run.init).hw.timestamp_ =
      5204 ∧
    ¬ (4294962000 < 5204) ∧
    5204 ≠ 4294962000 + stm32f405.increment := by
  refine ⟨alternates_down_up_append 204522 [16] (by decide), ?_, ?_, by decide, by decide⟩
  · rw [update_events_down_up_timestamp 204522 [] (by decide)]
    decide
  · rw [update_events_down_up_timestamp 204522 [16] (by decide)]
    decide

/-- C5 (amended): in every run of update events whose directions alternate, the first
differing from the stored `counting_down_`, every invocation of the handler advances
`timestamp_` by one increment modulo `2 ^ 32`: the value after `n + 1` events is the
value after `n` events plus `inc`, reduced to 32 bits. It is strictly larger whenever
that sum does not wrap and `inc` is positive. The handler issues no
`disarm_with_error` call. -/
theorem timestamp_advances_mod (k : Consts) (env : Env F) (hk : env.keeps_tick)
    (crs : List Nat) (r : Run F) (h : alternates k r.hw.counting_down_ crs = true) :
    (∀ n, n < crs.length →
      (update_events k env (crs.take (n + 1)) r).hw.timestamp_ =
        add32 (update_events k env (crs.take n) r).hw.timestamp_ k.increment ∧
      ((update_events k env (crs.take n) r).hw.timestamp_ + k.increment < 2 ^ 32 →
        0 < k.increment →
        (update_events k env (crs.take n) r).hw.timestamp_ <
          (update_events k env (crs.take (n + 1)) r).hw.timestamp_)) ∧
    List.countP Event.is_any_disarm (update_events k env crs r).trace =
      List.countP Event.is_any_disarm r.trace := by
  refine ⟨fun n hn => ?_, ?_⟩
  · have hs := update_events_step k env hk crs r h n hn
    refine ⟨hs, fun hlt hpos => ?_⟩
    rw [hs]
    unfold add32
    rw [Nat.mod_eq_of_lt hlt]
    omega
  · rw [update_events_trace k env hk crs r h, List.countP_append,
      accepted_trace_no_disarm, Nat.add_zero]

/-- C5 (amended) on three alternating events from the reset state. -/
theorem timestamp_advances_mod_witness :
    Env.idle.keeps_tick ∧
    alternates stm32f405 Run.init.hw.counting_down_ [16, 0, 16] = true ∧
    (∀ n, n < [16, 0, 16].length →
      (update_events stm32f405 Env.idle ([16, 0, 16].take (n + 1)) Run.init).hw.timestamp_ =
        add32 (update_events stm32f405 Env.idle ([16, 0, 16].take n) Run.init).hw.timestamp_
          stm32f405.increment ∧
      ((update_events stm32f405 Env.idle ([16, 0, 16].take n) Run.init).hw.timestamp_
          + stm32f405.increment < 2 ^ 32 →
        0 < stm32f405.increment →
        (update_events stm32f405 Env.idle ([16, 0, 16].take n) Run.init).hw.timestamp_ <
          (update_events stm32f405 Env.idle ([16, 0, 16].take (n + 1))
            Run.init).hw.timestamp_)) ∧
    List.countP Event.is_any_disarm
        (update_events stm32f405 Env.idle [16, 0, 16] Run.init).trace =
      List.countP Event.is_any_disarm Run.init.trace :=
  ⟨Env.idle_keeps_tick, by decide,
    timestamp_advances_mod stm32f405 Env.idle Env.idle_keeps_tick [16, 0, 16] Run.init
      (by decide)⟩

/-- C6 (counterexample): two update events from the reset state on the v3 board. When
the first one observes count-up and the second count-down, the first is taken for a
missed update: two disarm calls, no sampling callback, and the timestamp is one
increment, not two. When the first observes count-down and the second count-up, there
is one sampling callback, not two. -/
theorem alternating_run_counterexample :
    counting_down stm32f405 0 = false ∧
    alternates stm32f405 true [0, 16] = true ∧
    List.countP Event.is_any_disarm
      (update_events stm32f405 Env.idle [0, 16] Run.init).trace = 2 ∧
    List.countP Event.is_sampling
      (update_events stm32f405 Env.idle [0, 16] Run.init).trace = 0 ∧
    (update_events stm32f405 Env.idle [0, 16] Run.init).hw.timestamp_ = 10500 ∧
    2 * stm32f405.increment = 21000 ∧
    alternates stm32f405 false [16, 0] = true ∧
    List.countP Event.is_sampling
      (update_events stm32f405 Env.idle [16, 0] Run.init).trace = 1 := by
  decide

/-- C6 (amended): start with `timestamp_ = 0` and `counting_down_ = false`, and let
the directions of `n` consecutive update events alternate, the first one observing
count-down. After the `n` invocations the sampling callback has been called `n / 2`
times (once per count-up event), each call followed by one raise of the control-loop
interrupt, there has been no `disarm_with_error` call, and `timestamp_` is `n * inc`
modulo `2 ^ 32`. -/
theorem alternating_run_from_reset (k : Consts) (env : Env F) (hk : env.keeps_tick)
    (crs : List Nat) (r : Run F) (ht : r.hw.timestamp_ = 0)
    (hc : r.hw.counting_down_ = false) (h : alternates k false crs = true) :
    List.countP Event.is_sampling (update_events k env crs r).trace =
      List.countP Event.is_sampling r.trace + crs.length / 2 ∧
    List.countP Event.is_raise (update_events k env crs r).trace =
      List.countP Event.is_raise r.trace + crs.length / 2 ∧
    List.countP Event.is_any_disarm (update_events k env crs r).trace =
      List.countP Event.is_any_disarm r.trace ∧
    (update_events k env crs r).hw.timestamp_ = (crs.length * k.increment) % 2 ^ 32 ∧
    (update_events k env crs r).trace = r.trace ++ accepted_trace k crs := by
  have h1 : alternates k r.hw.counting_down_ crs = true := by rw [hc]; exact h
  have htr := update_events_trace k env hk crs r h1
  obtain ⟨c1, c2⟩ := accepted_trace_count_up (F := F) k false crs h
  refine ⟨?_, ?_, ?_, ?_, htr⟩
  · rw [htr, List.countP_append, c1]; simp
  · rw [htr, List.countP_append, c2]; simp
  · rw [htr, List.countP_append, accepted_trace_no_disarm, Nat.add_zero]
  · rw [update_events_timestamp k env hk crs r (by rw [ht]; decide) h1, ht, Nat.zero_add]

/-- C6 (amended) on four alternating events from the reset state. -/
theorem alternating_run_from_reset_witness :
    Env.idle.keeps_tick ∧ Run.init.hw.timestamp_ = 0 ∧
    Run.init.hw.counting_down_ = false ∧
    alternates stm32f405 false [16, 0, 16, 0] = true ∧
    List.countP Event.is_sampling
        (update_events stm32f405 Env.idle [16, 0, 16, 0] Run.init).trace =
      List.countP Event.is_sampling Run.init.trace + [16, 0, 16, 0].length / 2 ∧
    List.countP Event.is_raise
        (update_events stm32f405 Env.idle [16, 0, 16, 0] Run.init).trace =
      List.countP Event.is_raise Run.init.trace + [16, 0, 16, 0].length / 2 ∧
    List.countP Event.is_any_disarm
        (update_events stm32f405 Env.idle [16, 0, 16, 0] Run.init).trace =
      List.countP Event.is_any_disarm Run.init.trace ∧
    (update_events stm32f405 Env.idle [16, 0, 16, 0] Run.init).hw.timestamp_ =
      ([16, 0, 16, 0].length * stm32f405.increment) % 2 ^ 32 ∧
    (update_events stm32f405 Env.idle [16, 0, 16, 0] Run.init).trace =
      Run.init.trace ++ accepted_trace stm32f405 [16, 0, 16, 0] :=
  ⟨Env.idle_keeps_tick, rfl, rfl, by decide,
    alternating_run_from_reset stm32f405 Env.idle Env.idle_keeps_tick [16, 0, 16, 0]
      Run.init rfl rfl (by decide)⟩

/-! ## The control tick: the samples delivered -/

theorem fetch_and_reset_adcs_extends [Neg F] [Sub F] (k : Consts) (env : Env F)
    (c0 c1 : Option (Iph_ABC_t F)) (r : Run F) :
    ∃ added, (fetch_and_reset_adcs k env c0 c1 r).2.2.2.trace = r.trace ++ added := by
  unfold fetch_and_reset_adcs
  dsimp only
  split
  · exact ⟨[], by simp⟩
  · exact ⟨_, by simp only [write_ADC_SR_trace, Run.call_trace, List.append_assoc]; rfl⟩

theorem fetch_or_disarm_extends [Neg F] [Sub F] (k : Consts) (env : Env F)
    (loc : Locals F) (r : Run F) :
    ∃ added, (fetch_or_disarm k env loc r).2.2.trace = r.trace ++ added := by
  obtain ⟨a, ha⟩ := fetch_and_reset_adcs_extends k env loc.current0 loc.current1 r
  rw [fetch_or_disarm_trace, ha]
  exact ⟨_, List.append_assoc _ _ _⟩

theorem ControlLoop_update_extends (k : Consts) (env : Env F) (loc : Locals F)
    (r : Run F) : ∃ added, (ControlLoop_update k env loc r).trace = r.trace ++ added := by
  unfold ControlLoop_update
  exact ⟨_, by simp only [Run.call_trace, List.append_assoc]; rfl⟩

theorem ControlLoop_deadline_extends (k : Consts) (env : Env F) (loc : Locals F)
    (r : Run F) : ∃ added, (ControlLoop_deadline k env loc r).trace = r.trace ++ added := by
  unfold ControlLoop_deadline
  dsimp only
  split
  · exact ⟨_, by simp only [Run.call_trace, List.append_assoc]; rfl⟩
  · exact ⟨[], by simp⟩

/-- The trace of a completed control tick extends the trace at its busy-wait. -/
theorem ControlLoop_IRQHandler_extends [Zero F] [Neg F] [Sub F] (k : Consts)
    (env : Env F) (fuel : Nat) (r out : Run F)
    (h : ControlLoop_IRQHandler k env fuel r = some out) :
    ∃ rest, out.trace = (ControlLoop_before_wait k env r).2.trace ++ rest := by
  unfold ControlLoop_IRQHandler ControlLoop_before_deadline at h
  dsimp only at h
  split at h
  · exact absurd h (by simp)
  · rename_i c hc
    split at hc
    · exact absurd hc (by simp)
    · rename_i rwait hw
      simp only [Option.some.injEq] at hc h
      subst hc
      dsimp only at h
      obtain ⟨a1, h1⟩ := ControlLoop_deadline_extends k env
        (fetch_or_disarm k env (ControlLoop_before_wait k env r).1 rwait).2.1
        (ControlLoop_update k env
          (fetch_or_disarm k env (ControlLoop_before_wait k env r).1 rwait).2.1
          (fetch_or_disarm k env (ControlLoop_before_wait k env r).1 rwait).2.2)
      obtain ⟨a2, h2⟩ := ControlLoop_update_extends k env
        (fetch_or_disarm k env (ControlLoop_before_wait k env r).1 rwait).2.1
        (fetch_or_disarm k env (ControlLoop_before_wait k env r).1 rwait).2.2
      obtain ⟨a3, h3⟩ := fetch_or_disarm_extends k env
        (ControlLoop_before_wait k env r).1 rwait
      refine ⟨a3 ++ (a2 ++ a1), ?_⟩
      rw [← h, h1, h2, h3, dc_calib_wait_trace k env fuel _ rwait hw]
      simp only [List.append_assoc]

/-- C7: when control reaches the bridge checks (after the first ADC round and its
disarm calls), a motor whose `MOE` bit is clear - in `TIM1->BDTR` for motor 0, in
`TIM8->BDTR` for motor 1 - is delivered, through its `current_meas_cb`, a present
sample that is exactly `{0, 0, 0}`. This holds for every machine state and every
surroundings: all raw ADC codes, whether or not the fetch succeeded, whatever the
gate drivers report. The deliveries are part of every completed execution. -/
theorem bridge_inactive_sample_zero [Zero F] [Neg F] [Sub F] (k : Consts)
    (env : Env F) (r : Run F) :
    ((ControlLoop_round1 k env r).2.2.hw.TIM1.BDTR &&& k.TIM_BDTR_MOE_Msk = 0 →
      ∃ c1, (ControlLoop_before_wait k env r).2.trace =
        (ControlLoop_round1 k env r).2.2.trace ++
          ([Event.current_meas_cb 0 (sub32 r.hw.timestamp_ k.TIM1_INIT_COUNT)
             (some { phA := 0, phB := 0, phC := 0 }),
           Event.current_meas_cb 1 r.hw.timestamp_ c1,
           Event.control_loop_cb r.hw.timestamp_] : List (Event F))) ∧
    ((ControlLoop_round1 k env r).2.2.hw.TIM8.BDTR &&& k.TIM_BDTR_MOE_Msk = 0 →
      ∃ c0, (ControlLoop_before_wait k env r).2.trace =
        (ControlLoop_round1 k env r).2.2.trace ++
          ([Event.current_meas_cb 0 (sub32 r.hw.timestamp_ k.TIM1_INIT_COUNT) c0,
           Event.current_meas_cb 1 r.hw.timestamp_
             (some { phA := 0, phB := 0, phC := 0 }),
           Event.control_loop_cb r.hw.timestamp_] : List (Event F))) ∧
    (∀ fuel out, ControlLoop_IRQHandler k env fuel r = some out →
      ∃ rest, out.trace = (ControlLoop_before_wait k env r).2.trace ++ rest) := by
  have ht : (ControlLoop_round1 k env r).2.1.timestamp = r.hw.timestamp_ := by
    unfold ControlLoop_round1
    dsimp only
    rw [fetch_or_disarm_timestamp]
    rfl
  refine ⟨fun h => ?_, fun h => ?_, fun fuel out h =>
    ControlLoop_IRQHandler_extends k env fuel r out h⟩
  · unfold ControlLoop_before_wait ControlLoop_measure
    dsimp only
    rw [if_pos h]
    by_cases h8 : (ControlLoop_round1 k env r).2.2.hw.TIM8.BDTR &&& k.TIM_BDTR_MOE_Msk = 0
    · rw [if_pos h8]
      exact ⟨some { phA := 0, phB := 0, phC := 0 }, by simp [ht]⟩
    · rw [if_neg h8]
      exact ⟨(ControlLoop_round1 k env r).2.1.current1, by simp [ht]⟩
  · unfold ControlLoop_before_wait ControlLoop_measure
    dsimp only
    rw [if_pos h]
    by_cases h1 : (ControlLoop_round1 k env r).2.2.hw.TIM1.BDTR &&& k.TIM_BDTR_MOE_Msk = 0
    · rw [if_pos h1]
      exact ⟨some { phA := 0, phB := 0, phC := 0 }, by simp [ht]⟩
    · rw [if_neg h1]
      exact ⟨(ControlLoop_round1 k env r).2.1.current0, by simp [ht]⟩

/-- C7 with motor 0 coasting while its converters deliver the raw codes 2148 and
2048 and its gate driver is ready. -/
theorem bridge_inactive_sample_zero_witness :
    (ControlLoop_round1 stm32f405 Env.idle Run.coasting).1 = true ∧
    (ControlLoop_round1 stm32f405 Env.idle Run.coasting).2.2.hw.TIM1.BDTR
      &&& stm32f405.TIM_BDTR_MOE_Msk = 0 ∧
    ∃ c1, (ControlLoop_before_wait stm32f405 Env.idle Run.coasting).2.trace =
      (ControlLoop_round1 stm32f405 Env.idle Run.coasting).2.2.trace ++
        ([Event.current_meas_cb 0
            (sub32 Run.coasting.hw.timestamp_ stm32f405.TIM1_INIT_COUNT)
            (some { phA := 0, phB := 0, phC := 0 }),
          Event.current_meas_cb 1 Run.coasting.hw.timestamp_ c1,
          Event.control_loop_cb Run.coasting.hw.timestamp_] : List (Event Int)) :=
  ⟨by decide, by decide,
    (bridge_inactive_sample_zero stm32f405 Env.idle Run.coasting).1 (by decide)⟩

/-- C10 (the code at the failing input): the first ADC round succeeds and reconstructs
`{-100, 100, 0}` for motor 0 and `{90, -100, 10}` for motor 1; both bridges are
enabled. During the control computation ADC1 fails to finish, so the second
`fetch_and_reset_adcs` returns false. The samples handed to `dc_calib_cb` are the ones
of the first round, not empty optionals. -/
theorem dc_calib_receives_stale_sample :
    ∃ (loc : Locals Int) (r1 : Run Int),
      ControlLoop_before_deadline stm32f405 Env.stuck 0 Run.sampled =
        some (false, loc, r1) ∧
      (ControlLoop_round1 stm32f405 Env.stuck Run.sampled).1 = true ∧
      Event.current_meas_cb 0 19378 (some { phA := -100, phB := 100, phC := 0 })
        ∈ r1.trace ∧
      Event.dc_calib_cb 0 29878 (some { phA := -100, phB := 100, phC := 0 })
        ∈ r1.trace ∧
      Event.dc_calib_cb 1 31500 (some { phA := 90, phB := -100, phC := 10 })
        ∈ r1.trace :=
  ⟨_, _, rfl, by decide, by decide, by decide, by decide⟩

/-- The first ADC round starts from empty optionals: when its fetch is not-ok, both
locals are still empty at the bridge checks. -/
theorem ControlLoop_round1_absent [Neg F] [Sub F] (k : Consts) (env : Env F) (r : Run F)
    (h : (ControlLoop_round1 k env r).1 = false) :
    (ControlLoop_round1 k env r).2.1.current0 = none ∧
    (ControlLoop_round1 k env r).2.1.current1 = none := by
  unfold ControlLoop_round1 at h ⊢
  dsimp only at h ⊢
  rw [fetch_or_disarm_fst] at h
  have hl : lacks_completion k (r.log (Event.COUNT_IRQ IRQn.ControlLoop_IRQn)).hw := by
    by_contra hc
    rw [fetch_and_reset_adcs_of_complete k env none none _ hc] at h
    exact Bool.noConfusion h
  unfold fetch_or_disarm
  dsimp only
  rw [fetch_and_reset_adcs_of_lacks k env none none _ hl]
  simp

/-- The sample reconstructed from two present phase currents stores the computed
`-B - C` as phase A next to `B` and `C`. -/
theorem reconstruct_present [Neg F] [Sub F] (b c : F) (current : Option (Iph_ABC_t F)) :
    reconstruct (some b) (some c) current = some { phA := -b - c, phB := b, phC := c } :=
  rfl

/-! ## The sampling tick: what an accepted update does -/

/-- C11: for every accepted update event (the direction read differs from the stored
`counting_down_`), with the constant `TIM_1_8_PERIOD_CLOCKS / 2` fitting the 32-bit
compare registers. On a transition to count-down the handler adds, after its entry
bookkeeping, exactly six stores of `TIM_1_8_PERIOD_CLOCKS / 2`, one to each of
`TIM8->CCR3..CCR1` and `TIM1->CCR3..CCR1`: it neither calls the sampling callback nor
raises the control-loop interrupt, and all six registers hold that value on return. On
a transition to count-up it calls the sampling callback exactly once and then raises
the control-loop interrupt exactly once, and stores to no compare register: the two
timers reach the callback as they were at entry, and are unchanged on return when the
callback does not touch them. -/
theorem accepted_update_actions (k : Consts) (env : Env F) (r : Run F)
    (hP : k.TIM_1_8_PERIOD_CLOCKS / 2 < 2 ^ 32)
    (h : counting_down k r.hw.TIM8.CR1 ≠ r.hw.counting_down_) :
    (counting_down k r.hw.TIM8.CR1 = true →
      (TIM8_UP_TIM13_IRQHandler k env r).trace =
        r.trace ++
          [Event.COUNT_IRQ IRQn.TIM8_UP_TIM13_IRQn, Event.HAL_TIM_CLEAR_IT_htim8_UPDATE,
           Event.write_CCR TimId.TIM8 CcrId.CCR3 (k.TIM_1_8_PERIOD_CLOCKS / 2),
           Event.write_CCR TimId.TIM8 CcrId.CCR2 (k.TIM_1_8_PERIOD_CLOCKS / 2),
           Event.write_CCR TimId.TIM8 CcrId.CCR1 (k.TIM_1_8_PERIOD_CLOCKS / 2),
           Event.write_CCR TimId.TIM1 CcrId.CCR3 (k.TIM_1_8_PERIOD_CLOCKS / 2),
           Event.write_CCR TimId.TIM1 CcrId.CCR2 (k.TIM_1_8_PERIOD_CLOCKS / 2),
           Event.write_CCR TimId.TIM1 CcrId.CCR1 (k.TIM_1_8_PERIOD_CLOCKS / 2)] ∧
      List.countP Event.is_sampling (TIM8_UP_TIM13_IRQHandler k env r).trace =
        List.countP Event.is_sampling r.trace ∧
      List.countP Event.is_raise (TIM8_UP_TIM13_IRQHandler k env r).trace =
        List.countP Event.is_raise r.trace ∧
      (TIM8_UP_TIM13_IRQHandler k env r).hw.TIM1.CCR1 = k.TIM_1_8_PERIOD_CLOCKS / 2 ∧
      (TIM8_UP_TIM13_IRQHandler k env r).hw.TIM1.CCR2 = k.TIM_1_8_PERIOD_CLOCKS / 2 ∧
      (TIM8_UP_TIM13_IRQHandler k env r).hw.TIM1.CCR3 = k.TIM_1_8_PERIOD_CLOCKS / 2 ∧
      (TIM8_UP_TIM13_IRQHandler k env r).hw.TIM8.CCR1 = k.TIM_1_8_PERIOD_CLOCKS / 2 ∧
      (TIM8_UP_TIM13_IRQHandler k env r).hw.TIM8.CCR2 = k.TIM_1_8_PERIOD_CLOCKS / 2 ∧
      (TIM8_UP_TIM13_IRQHandler k env r).hw.TIM8.CCR3 = k.TIM_1_8_PERIOD_CLOCKS / 2) ∧
    (counting_down k r.hw.TIM8.CR1 = false →
      (TIM8_UP_TIM13_IRQHandler k env r).trace =
        r.trace ++
          [Event.COUNT_IRQ IRQn.TIM8_UP_TIM13_IRQn, Event.HAL_TIM_CLEAR_IT_htim8_UPDATE,
           Event.sampling_cb, Event.NVIC_STIR IRQn.ControlLoop_IRQn] ∧
      List.countP Event.is_sampling (TIM8_UP_TIM13_IRQHandler k env r).trace =
        List.countP Event.is_sampling r.trace + 1 ∧
      List.countP Event.is_raise (TIM8_UP_TIM13_IRQHandler k env r).trace =
        List.countP Event.is_raise r.trace + 1 ∧
      (∃ m : Machine, (TIM8_UP_TIM13_IRQHandler k env r).hw = env.effect Event.sampling_cb m ∧
        m.TIM1 = r.hw.TIM1 ∧ m.TIM8 = r.hw.TIM8) ∧
      ((∀ m : Machine, (env.effect Event.sampling_cb m).TIM1 = m.TIM1 ∧
          (env.effect Event.sampling_cb m).TIM8 = m.TIM8) →
        (TIM8_UP_TIM13_IRQHandler k env r).hw.TIM1 = r.hw.TIM1 ∧
        (TIM8_UP_TIM13_IRQHandler k env r).hw.TIM8 = r.hw.TIM8)) := by
  have h1 : ∀ d, counting_down k r.hw.TIM8.CR1 = d → (r.hw.counting_down_ == d) = false := by
    intro d hd
    rw [← hd]
    cases hc : r.hw.counting_down_ <;> cases hd2 : counting_down k r.hw.TIM8.CR1 <;>
      simp_all
  refine ⟨fun hd => ?_, fun hd => ?_⟩
  · have hv : k.TIM_1_8_PERIOD_CLOCKS / 2 % 2 ^ 32 = k.TIM_1_8_PERIOD_CLOCKS / 2 :=
      Nat.mod_eq_of_lt hP
    unfold TIM8_UP_TIM13_IRQHandler
    simp only [Run.log_hw, hd, h1 true hd, Bool.false_eq_true, if_false, Bool.not_true, hv]
    simp [write_CCR, List.countP_append, List.countP_cons, Event.is_sampling, Event.is_raise]
  · unfold TIM8_UP_TIM13_IRQHandler
    simp only [Run.log_hw, hd, h1 false hd, Bool.false_eq_true, if_false, Bool.not_false,
      if_true]
    refine ⟨by simp, ?_, ?_, ⟨_, rfl, rfl, rfl⟩, fun he => ?_⟩
    · simp [List.countP_append, List.countP_cons, Event.is_sampling]
    · simp [List.countP_append, List.countP_cons, Event.is_raise]
    · simp [he]

/-- C11 on the first two update events after reset on the v3 board: the transition to
count-down stores 1750 to the six compare registers, the transition to count-up runs
the sampling callback and raises the control-loop interrupt once. -/
theorem accepted_update_actions_witness :
    stm32f405.TIM_1_8_PERIOD_CLOCKS / 2 < 2 ^ 32 ∧
    counting_down stm32f405 Run.at_top.hw.TIM8.CR1 ≠ Run.at_top.hw.counting_down_ ∧
    counting_down stm32f405 Run.at_top.hw.TIM8.CR1 = true ∧
    ((TIM8_UP_TIM13_IRQHandler stm32f405 Env.idle Run.at_top).trace =
        Run.at_top.trace ++
          [Event.COUNT_IRQ IRQn.TIM8_UP_TIM13_IRQn, Event.HAL_TIM_CLEAR_IT_htim8_UPDATE,
           Event.write_CCR TimId.TIM8 CcrId.CCR3 (stm32f405.TIM_1_8_PERIOD_CLOCKS / 2),
           Event.write_CCR TimId.TIM8 CcrId.CCR2 (stm32f405.TIM_1_8_PERIOD_CLOCKS / 2),
           Event.write_CCR TimId.TIM8 CcrId.CCR1 (stm32f405.TIM_1_8_PERIOD_CLOCKS / 2),
           Event.write_CCR TimId.TIM1 CcrId.CCR3 (stm32f405.TIM_1_8_PERIOD_CLOCKS / 2),
           Event.write_CCR TimId.TIM1 CcrId.CCR2 (stm32f405.TIM_1_8_PERIOD_CLOCKS / 2),
           Event.write_CCR TimId.TIM1 CcrId.CCR1 (stm32f405.TIM_1_8_PERIOD_CLOCKS / 2)] ∧
      List.countP Event.is_sampling
          (TIM8_UP_TIM13_IRQHandler stm32f405 Env.idle Run.at_top).trace =
        List.countP Event.is_sampling Run.at_top.trace ∧
      List.countP Event.is_raise
          (TIM8_UP_TIM13_IRQHandler stm32f405 Env.idle Run.at_top).trace =
        List.countP Event.is_raise Run.at_top.trace ∧
      (TIM8_UP_TIM13_IRQHandler stm32f405 Env.idle Run.at_top).hw.TIM1.CCR1 =
        stm32f405.TIM_1_8_PERIOD_CLOCKS / 2 ∧
      (TIM8_UP_TIM13_IRQHandler stm32f405 Env.idle Run.at_top).hw.TIM1.CCR2 =
        stm32f405.TIM_1_8_PERIOD_CLOCKS / 2 ∧
      (TIM8_UP_TIM13_IRQHandler stm32f405 Env.idle Run.at_top).hw.TIM1.CCR3 =
        stm32f405.TIM_1_8_PERIOD_CLOCKS / 2 ∧
      (TIM8_UP_TIM13_IRQHandler stm32f405 Env.idle Run.at_top).hw.TIM8.CCR1 =
        stm32f405.TIM_1_8_PERIOD_CLOCKS / 2 ∧
      (TIM8_UP_TIM13_IRQHandler stm32f405 Env.idle Run.at_top).hw.TIM8.CCR2 =
        stm32f405.TIM_1_8_PERIOD_CLOCKS / 2 ∧
      (TIM8_UP_TIM13_IRQHandler stm32f405 Env.idle Run.at_top).hw.TIM8.CCR3 =
        stm32f405.TIM_1_8_PERIOD_CLOCKS / 2) ∧
    counting_down stm32f405 Run.at_bottom.hw.TIM8.CR1 ≠ Run.at_bottom.hw.counting_down_ ∧
    counting_down stm32f405 Run.at_bottom.hw.TIM8.CR1 = false ∧
    ((TIM8_UP_TIM13_IRQHandler stm32f405 Env.idle Run.at_bottom).trace =
        Run.at_bottom.trace ++
          [Event.COUNT_IRQ IRQn.TIM8_UP_TIM13_IRQn, Event.HAL_TIM_CLEAR_IT_htim8_UPDATE,
           Event.sampling_cb, Event.NVIC_STIR IRQn.ControlLoop_IRQn] ∧
      List.countP Event.is_sampling
          (TIM8_UP_TIM13_IRQHandler stm32f405 Env.idle Run.at_bottom).trace =
        List.countP Event.is_sampling Run.at_bottom.trace + 1 ∧
      List.countP Event.is_raise
          (TIM8_UP_TIM13_IRQHandler stm32f405 Env.idle Run.at_bottom).trace =
        List.countP Event.is_raise Run.at_bottom.trace + 1 ∧
      (∃ m : Machine,
        (TIM8_UP_TIM13_IRQHandler stm32f405 Env.idle Run.at_bottom).hw =
          Env.idle.effect Event.sampling_cb m ∧
        m.TIM1 = Run.at_bottom.hw.TIM1 ∧ m.TIM8 = Run.at_bottom.hw.TIM8) ∧
      ((∀ m : Machine, (Env.idle.effect Event.sampling_cb m).TIM1 = m.TIM1 ∧
          (Env.idle.effect Event.sampling_cb m).TIM8 = m.TIM8) →
        (TIM8_UP_TIM13_IRQHandler stm32f405 Env.idle Run.at_bottom).hw.TIM1 =
          Run.at_bottom.hw.TIM1 ∧
        (TIM8_UP_TIM13_IRQHandler stm32f405 Env.idle Run.at_bottom).hw.TIM8 =
          Run.at_bottom.hw.TIM8)) :=
  ⟨by decide, by decide, by decide,
    (accepted_update_actions stm32f405 Env.idle Run.at_top (by decide) (by decide)).1
      (by decide),
    by decide, by decide,
    (accepted_update_actions stm32f405 Env.idle Run.at_bottom (by decide) (by decide)).2
      (by decide)⟩

/-! ## The sampling tick: no fault latch -/

end ODrive
